import Mathlib

/-!
Verification of the cornucopia code generator (src/cli.rs, src/codegen.rs,
src/error.rs) against its natural-language specification.

The development has three layers:
* a model of PostgreSQL runtime type descriptors (`PgType`), as observed by the
  generated `FromSql`/`ToSql` implementations through `postgres_types::Type`;
* semantic models of the *generated* composite/domain codec code (the Rust text
  produced by `composite_tosql`, `composite_fromsql`, `domain_tosql`,
  `domain_brw_fromsql`), translated statement by statement from the emitted
  templates in src/codegen.rs;
* string-level models of the emitter functions themselves (`gen_params_struct`,
  `gen_row_structs`, `gen_query_fn`, `gen_custom_type`, `gen_type_modules`,
  `generate`), reproducing the exact text the Rust code writes.  Braces and
  apostrophes occurring in generated Rust text are written with their escape
  codes.
-/

set_option maxHeartbeats 1000000
set_option maxRecDepth 4096
set_option linter.unusedVariables false

/-- A PostgreSQL runtime type descriptor, as exposed by `postgres_types::Type`
to the generated code: schema, name, oid and kind.  Composite fields are
(name, type) pairs in declaration order; a domain carries its inner type. -/
inductive PgType : Type where
  | scalarT (schema name : String) (oid : Nat)
  | enumT (schema name : String) (oid : Nat) (variants : List String)
  | domainT (schema name : String) (oid : Nat) (inner : PgType)
  | compositeT (schema name : String) (oid : Nat) (fields : List (String × PgType))

/-- `Type::schema()` of the driver. -/
def PgType.schema : PgType → String
  | .scalarT s _ _ => s
  | .enumT s _ _ _ => s
  | .domainT s _ _ _ => s
  | .compositeT s _ _ _ => s

/-- `Type::name()` of the driver. -/
def PgType.name : PgType → String
  | .scalarT _ n _ => n
  | .enumT _ n _ _ => n
  | .domainT _ n _ _ => n
  | .compositeT _ n _ _ => n

/-- `Type::oid()` of the driver. -/
def PgType.oid : PgType → Nat
  | .scalarT _ _ o => o
  | .enumT _ _ o _ => o
  | .domainT _ _ o _ => o
  | .compositeT _ _ o _ => o

/-- Replace only the schema of a runtime type, leaving name, oid and kind
untouched.  Used to compare the behaviour of the generated `accepts`
predicates on two same-named types living in different schemas. -/
def PgType.withSchema : PgType → String → PgType
  | .scalarT _ n o, s => .scalarT s n o
  | .enumT _ n o v, s => .enumT s n o v
  | .domainT _ n o i, s => .domainT s n o i
  | .compositeT _ n o f, s => .compositeT s n o f

/-! ### Semantics of the generated `accepts` predicates

The generated `ToSql::accepts` for a composite type `ty_name` with declared
fields `f1 .. fk` is (src/codegen.rs:237-253):

```
if type_.name() != "{ty_name}" { return false; }
match *type_.kind() {
    Kind::Composite(ref fields) => {
        if fields.len() != {nb_fields}usize { return false; }
        fields.iter().all(|f| match f.name() {
            "{f1}" => <T1 as ToSql>::accepts(f.type_()),
            ...
            _ => false,
        })
    }
    _ => false,
}
```

An arm list entry pairs a declared field name with the `accepts` predicate of
the corresponding inner Rust type (that predicate is driver/generated code for
the field type, kept abstract). -/

/-- One arm of the generated `match f.name() { ... }` inside `accepts`: the
first declared field with a matching name decides, an unmatched name falls to
the `_ => false` arm. -/
def arm_check (arms : List (String × (PgType → Bool))) (f : String × PgType) : Bool :=
  match List.lookup f.1 arms with
  | some acc => acc f.2
  | none => false

/-- `ToSql::accepts` of the generated impl for a composite type, from
src/codegen.rs lines 237-253.  `arms` holds one entry per declared field, in
declaration order, pairing the field name with the inner type's `accepts`. -/
def composite_tosql_accepts (ty_name : String)
    (arms : List (String × (PgType → Bool))) (t : PgType) : Bool :=
  if t.name ≠ ty_name then false
  else
    match t with
    | .compositeT _ _ _ fields =>
      if fields.length ≠ arms.length then false
      else fields.all (arm_check arms)
    | _ => false

/-- `ToSql::accepts` of the generated impl for a domain type, from
src/codegen.rs lines 145-155: the name must match and, when the kind is
`Domain`, the inner Rust type's `accepts` is consulted on the inner driver
type; any other kind is rejected. -/
def domain_tosql_accepts (ty_name : String) (inner_accepts : PgType → Bool)
    (t : PgType) : Bool :=
  if t.name ≠ ty_name then false
  else
    match t with
    | .domainT _ _ _ inner => inner_accepts inner
    | _ => false

/-- `FromSql::accepts` of the generated borrowed impl for a composite type,
from src/codegen.rs lines 299-301: both name and schema must match. -/
def composite_fromsql_accepts (ty_name ty_schema : String) (t : PgType) : Bool :=
  t.name == ty_name && t.schema == ty_schema

/-- `FromSql::accepts` of the generated borrowed impl for a domain type, from
src/codegen.rs lines 111-113: both name and schema must match. -/
def domain_fromsql_accepts (ty_name ty_schema : String) (t : PgType) : Bool :=
  t.name == ty_name && t.schema == ty_schema

/-- The runtime type's field list when its kind is `Composite`, `none`
otherwise. -/
def PgType.compositeFields : PgType → Option (List (String × PgType))
  | .compositeT _ _ _ fields => some fields
  | _ => none

/-- The runtime type's inner type when its kind is `Domain`, `none`
otherwise. -/
def PgType.domainInner : PgType → Option PgType
  | .domainT _ _ _ inner => some inner
  | _ => none

@[simp] theorem compositeFields_compositeT (s n : String) (o : Nat)
    (fields : List (String × PgType)) :
    (PgType.compositeT s n o fields).compositeFields = some fields := rfl

@[simp] theorem domainInner_domainT (s n : String) (o : Nat) (i : PgType) :
    (PgType.domainT s n o i).domainInner = some i := rfl

/-- The spec's wording of the composite `ToSql` accepts condition: the type
name matches, the kind is Composite, the runtime field count equals the
generated type's field count, and for every runtime field its name resolves to
a declared field whose inner Rust type's `accepts` holds of that field's
driver type. -/
def CompositeToSqlAcceptsSpec (ty_name : String)
    (arms : List (String × (PgType → Bool))) (t : PgType) : Prop :=
  t.name = ty_name ∧
  ∃ fields, t.compositeFields = some fields ∧
    fields.length = arms.length ∧
    ∀ f ∈ fields, ∃ acc, List.lookup f.1 arms = some acc ∧ acc f.2 = true

/-- The spec's wording of the domain `ToSql` accepts condition: the type name
matches, the kind is Domain, and the inner Rust type's `accepts` holds of the
inner driver type. -/
def DomainToSqlAcceptsSpec (ty_name : String) (inner_accepts : PgType → Bool)
    (t : PgType) : Prop :=
  t.name = ty_name ∧
  ∃ inner, t.domainInner = some inner ∧ inner_accepts inner = true

/-- C5: the generated `ToSql` accepts predicate for a composite type holds
exactly when the name matches, the kind is Composite, the runtime field count
equals the declared count, and every runtime field's name resolves to a
declared field whose inner `accepts` holds of its driver type; and for a
domain type exactly when the name matches, the kind is Domain, and the inner
`accepts` holds of the inner driver type. -/
theorem tosql_accepts_spec (ty_name : String)
    (arms : List (String × (PgType → Bool))) (inner_accepts : PgType → Bool)
    (t : PgType) :
    (composite_tosql_accepts ty_name arms t = true ↔
      CompositeToSqlAcceptsSpec ty_name arms t) ∧
    (domain_tosql_accepts ty_name inner_accepts t = true ↔
      DomainToSqlAcceptsSpec ty_name inner_accepts t) := by
  have harm : ∀ f : String × PgType, arm_check arms f = true ↔
      ∃ acc, List.lookup f.1 arms = some acc ∧ acc f.2 = true := by
    intro f
    unfold arm_check
    cases h : List.lookup f.1 arms <;> simp [h]
  constructor
  · cases t with
    | compositeT s n o fields =>
      by_cases hname : n = ty_name
      · subst hname
        by_cases hlen : fields.length = arms.length <;>
          simp [composite_tosql_accepts, CompositeToSqlAcceptsSpec, PgType.name,
            PgType.compositeFields, hlen, List.all_eq_true, harm]
      · simp [composite_tosql_accepts, CompositeToSqlAcceptsSpec, PgType.name, hname]
    | scalarT s n o =>
      simp [composite_tosql_accepts, CompositeToSqlAcceptsSpec, PgType.name,
        PgType.compositeFields]
    | enumT s n o v =>
      simp [composite_tosql_accepts, CompositeToSqlAcceptsSpec, PgType.name,
        PgType.compositeFields]
    | domainT s n o i =>
      simp [composite_tosql_accepts, CompositeToSqlAcceptsSpec, PgType.name,
        PgType.compositeFields]
  · cases t with
    | domainT s n o inner =>
      by_cases hname : n = ty_name
      · subst hname
        simp [domain_tosql_accepts, DomainToSqlAcceptsSpec, PgType.name,
          PgType.domainInner]
      · simp [domain_tosql_accepts, DomainToSqlAcceptsSpec, PgType.name, hname]
    | scalarT s n o =>
      simp [domain_tosql_accepts, DomainToSqlAcceptsSpec, PgType.name,
        PgType.domainInner]
    | enumT s n o v =>
      simp [domain_tosql_accepts, DomainToSqlAcceptsSpec, PgType.name,
        PgType.domainInner]
    | compositeT s n o f =>
      simp [domain_tosql_accepts, DomainToSqlAcceptsSpec, PgType.name,
        PgType.domainInner]

/-- C10: for every generated domain and composite type, the `FromSql` accepts
predicate requires both the PostgreSQL type name and the schema to match,
while the corresponding `ToSql` accepts predicate never consults the schema
(changing only the schema of the runtime type cannot change its verdict); so
two same-named types in different schemas are distinguished on decode but not
on encode. -/
theorem accepts_schema_sensitivity (ty_name ty_schema s2 : String)
    (arms : List (String × (PgType → Bool))) (inner_accepts : PgType → Bool)
    (t : PgType) :
    composite_tosql_accepts ty_name arms (t.withSchema s2)
      = composite_tosql_accepts ty_name arms t ∧
    domain_tosql_accepts ty_name inner_accepts (t.withSchema s2)
      = domain_tosql_accepts ty_name inner_accepts t ∧
    (composite_fromsql_accepts ty_name ty_schema t = true ↔
      t.name = ty_name ∧ t.schema = ty_schema) ∧
    (domain_fromsql_accepts ty_name ty_schema t = true ↔
      t.name = ty_name ∧ t.schema = ty_schema) ∧
    (s2 ≠ ty_schema →
      composite_fromsql_accepts ty_name ty_schema (t.withSchema s2) = false ∧
      domain_fromsql_accepts ty_name ty_schema (t.withSchema s2) = false) := by
  refine ⟨?_, ?_, ?_, ?_, ?_⟩
  · cases t <;> rfl
  · cases t <;> rfl
  · simp [composite_fromsql_accepts]
  · simp [domain_fromsql_accepts]
  · intro hs
    constructor <;> cases t <;>
      simp [composite_fromsql_accepts, domain_fromsql_accepts,
        PgType.withSchema, PgType.schema, PgType.name, hs]

/-- Witness for `accepts_schema_sensitivity`: a concrete composite type named
`addr` in schema `public`; moving it to schema `other` makes the generated
`FromSql` accepts reject it. -/
theorem accepts_schema_sensitivity_witness :
    ("other" ≠ "public") ∧
    composite_fromsql_accepts "addr" "public"
      ((PgType.compositeT "public" "addr" 77 []).withSchema "other") = false :=
  ⟨by decide,
    ((accepts_schema_sensitivity "addr" "public" "other" [] (fun _ => false)
      (PgType.compositeT "public" "addr" 77 [])).2.2.2.2 (by decide)).1⟩

/-! ### Semantics of the generated composite binary codec

The generated `to_sql`/`from_sql` bodies for non-copy composite types
(src/codegen.rs lines 200-235 and 282-304) are modelled below.  Inner field
encoders/decoders (`ToSql::to_sql` of the field's Rust type and
`postgres_types::private::read_value`) are driver or other generated code and
are kept abstract: an encoder reports the bytes it appends and the `IsNull`
flag it returns (`true` = `IsNull::Yes`), a reader consumes a prefix of the
buffer and yields a value.  Buffers are byte lists. -/

/-- Big-endian 4-byte two's-complement encoding, the `to_be_bytes()` of an
`i32`/`u32` in the generated code. -/
def be32 (n : Int) : List Nat :=
  let m := (n % 4294967296).toNat
  [m / 16777216 % 256, m / 65536 % 256, m / 256 % 256, m % 256]

/-- `postgres_types::private::read_be_i32` (driver code): pop 4 bytes,
big-endian, signed; error when fewer than 4 bytes remain. -/
def read_be_i32 (buf : List Nat) : Except String (Int × List Nat) :=
  match buf with
  | b0 :: b1 :: b2 :: b3 :: rest =>
    let u : Nat := b0 % 256 * 16777216 + b1 % 256 * 65536 + b2 % 256 * 256 + b3 % 256
    .ok (if u < 2147483648 then (u : Int) else (u : Int) - 4294967296, rest)
  | _ => .error "invalid buffer size"

/-- `buf[i..i+v.length].copy_from_slice(&v)` on a byte list. -/
def setSlice (l : List Nat) (i : Nat) (v : List Nat) : List Nat :=
  l.take i ++ v ++ l.drop (i + v.length)

/-- Outcome of one inner `ToSql::to_sql` call of the generated composite
encoder: the runtime field type is passed in (`field.type_()`), and the call
appends some bytes to the buffer and returns an `IsNull` flag, or fails. -/
abbrev FieldEnc := PgType → Except String (List Nat × Bool)

/-- The per-field loop of the generated composite `to_sql`
(src/codegen.rs lines 213-234): for each runtime field, append the big-endian
OID, remember `base`, reserve 4 zero bytes, dispatch on the field name into
the declared arms (`_ => unreachable!()`), run the inner encoder, then fill
the length slot with the byte count (after the `i32::MAX` check) or `-1` when
the value indicated null. -/
def composite_to_sql_fields (arms : List (String × FieldEnc)) :
    List (String × PgType) → List Nat → Except String (List Nat)
  | [], buf => .ok buf
  | (nm, ty) :: rest, buf =>
    let buf1 := buf ++ be32 (ty.oid : Int)
    let base := buf1.length
    let buf2 := buf1 ++ [0, 0, 0, 0]
    match List.lookup nm arms with
    | none => .error "panic: unreachable"
    | some enc =>
      match enc ty with
      | .error e => .error e
      | .ok (bytes, isnull) =>
        let buf3 := buf2 ++ bytes
        if isnull then
          composite_to_sql_fields arms rest (setSlice buf3 base (be32 (-1)))
        else
          let len := buf3.length - base - 4
          if 2147483647 < len then .error "value too large to transmit"
          else composite_to_sql_fields arms rest (setSlice buf3 base (be32 (len : Int)))

/-- The generated composite `to_sql` body (src/codegen.rs lines 203-236):
extract the runtime fields (`unreachable!()` on a non-composite kind), write
the big-endian `i32` field count, run the per-field loop, return
`IsNull::No` (modelled as `false`). -/
def composite_to_sql (arms : List (String × FieldEnc)) (t : PgType)
    (buf : List Nat) : Except String (List Nat × Bool) :=
  match t with
  | .compositeT _ _ _ fields =>
    (composite_to_sql_fields arms fields
      (buf ++ be32 (fields.length : Int))).map (fun b => (b, false))
  | _ => .error "panic: unreachable"

/-- One field segment of the wire format as the spec words it: big-endian
`i32` OID, then a 4-byte length holding the number of value bytes written, or
`-1` when the value indicated null, then the value bytes. -/
def specFieldSegment (oid : Nat) (bytes : List Nat) (isnull : Bool) : List Nat :=
  be32 (oid : Int) ++ (if isnull then be32 (-1) else be32 (bytes.length : Int)) ++ bytes

/-- The field segments as the spec words them, in field order; a non-null
value of more than `i32::MAX` bytes fails with the value-too-large error. -/
def specSegments : List (Nat × List Nat × Bool) → Except String (List Nat)
  | [] => .ok []
  | (oid, bytes, isnull) :: rest =>
    if isnull = false ∧ 2147483647 < bytes.length then
      .error "value too large to transmit"
    else (specSegments rest).map (fun tl => specFieldSegment oid bytes isnull ++ tl)

/-- The full composite wire encoding as the spec words it: big-endian `i32`
field count followed by the field segments. -/
def spec_composite_encoding (count : Nat) (outs : List (Nat × List Nat × Bool)) :
    Except String (List Nat) :=
  (specSegments outs).map (fun segs => be32 (count : Int) ++ segs)

/-- Relates one runtime field to the behaviour of its inner encoder: the
recorded OID is the field type's OID, the field name resolves among the
declared arms, and the encoder returns the recorded bytes and null flag. -/
def EncMatches (arms : List (String × FieldEnc)) :
    (String × PgType) → (Nat × List Nat × Bool) → Prop :=
  fun f out => out.1 = f.2.oid ∧
    ∃ enc, List.lookup f.1 arms = some enc ∧ enc f.2 = .ok (out.2.1, out.2.2)

@[simp] theorem be32_length (n : Int) : (be32 n).length = 4 := rfl

/-- Filling the reserved 4-byte slot right after it was written: the buffer is
`X ++ [0,0,0,0] ++ bytes` with the slot at offset `X.length`. -/
theorem setSlice_after (X bytes v : List Nat) (hv : v.length = 4) :
    setSlice ((X ++ [0, 0, 0, 0]) ++ bytes) X.length v = X ++ (v ++ bytes) := by
  unfold setSlice
  rw [List.append_assoc X [0, 0, 0, 0] bytes, List.take_left]
  have hd : (X ++ ([0, 0, 0, 0] ++ bytes)).drop (X.length + v.length) = bytes := by
    rw [hv, ← List.append_assoc]
    have hlen : (X ++ [0, 0, 0, 0]).length = X.length + 4 := by simp
    rw [← hlen, List.drop_left]
  rw [hd, List.append_assoc]

/-- One unfolding step of the per-field encoder loop when the field name
resolves and the inner encoder succeeds. -/
theorem composite_to_sql_fields_cons (arms : List (String × FieldEnc))
    (nm : String) (ty : PgType) (rest : List (String × PgType)) (buf : List Nat)
    (enc : FieldEnc) (bytes : List Nat) (isnull : Bool)
    (hlook : List.lookup nm arms = some enc)
    (henc : enc ty = .ok (bytes, isnull)) :
    composite_to_sql_fields arms ((nm, ty) :: rest) buf
      = if isnull then
          composite_to_sql_fields arms rest
            ((buf ++ be32 (ty.oid : Int)) ++ (be32 (-1) ++ bytes))
        else if 2147483647 < bytes.length then .error "value too large to transmit"
        else composite_to_sql_fields arms rest
            ((buf ++ be32 (ty.oid : Int)) ++ (be32 (bytes.length : Int) ++ bytes)) := by
  have harith : ((buf ++ be32 (ty.oid : Int)) ++ [0, 0, 0, 0] ++ bytes).length
      - (buf ++ be32 (ty.oid : Int)).length - 4 = bytes.length := by
    simp [List.length_append]
    omega
  simp only [composite_to_sql_fields, hlook, henc, harith,
    setSlice_after _ _ _ (be32_length _)]

/-- The per-field loop writes exactly the spec's field segments after the
incoming buffer, field by field in order, failing with the value-too-large
error on the first oversized non-null value. -/
theorem composite_to_sql_fields_spec (arms : List (String × FieldEnc))
    (rt : List (String × PgType)) (outs : List (Nat × List Nat × Bool))
    (buf : List Nat) (h : List.Forall₂ (EncMatches arms) rt outs) :
    composite_to_sql_fields arms rt buf
      = (specSegments outs).map (fun segs => buf ++ segs) := by
  induction h generalizing buf with
  | nil => simp [composite_to_sql_fields, specSegments, Except.map]
  | cons hhead htail ih =>
    rename_i f out l1 l2
    obtain ⟨nm, ty⟩ := f
    obtain ⟨oid, bytes, isnull⟩ := out
    obtain ⟨hoid, enc, hlook, henc⟩ := hhead
    simp only at hoid henc
    subst hoid
    rw [composite_to_sql_fields_cons arms nm ty l1 buf enc bytes isnull hlook henc]
    cases isnull with
    | true =>
      rw [if_pos rfl, ih]
      cases hs : specSegments l2 with
      | error e => simp [specSegments, hs, Except.map]
      | ok tl => simp [specSegments, hs, Except.map, specFieldSegment, List.append_assoc]
    | false =>
      rw [if_neg (by simp)]
      by_cases hbig : 2147483647 < bytes.length
      · simp [hbig, specSegments, Except.map]
      · rw [if_neg hbig, ih]
        cases hs : specSegments l2 with
        | error e => simp [specSegments, hs, Except.map, hbig]
        | ok tl =>
          simp [specSegments, hs, Except.map, specFieldSegment, hbig, List.append_assoc]

/-- C3: the generated composite `to_sql` produces exactly the wire format the
spec describes: a big-endian `i32` field count, then per field a big-endian
`i32` OID followed by a 4-byte length slot filled with the number of value
bytes written, or `-1` when the inner encoder indicated null; a non-null value
of more than `i32::MAX` bytes makes `to_sql` fail with the value-too-large
error instead of writing a length.  The hypothesis ties each runtime field to
its inner encoder's outcome; `spec_composite_encoding` is worded from the
spec. -/
theorem composite_tosql_wire_spec (arms : List (String × FieldEnc))
    (s n : String) (o : Nat) (rt : List (String × PgType))
    (outs : List (Nat × List Nat × Bool)) (buf : List Nat)
    (h : List.Forall₂ (EncMatches arms) rt outs) :
    composite_to_sql arms (.compositeT s n o rt) buf
      = (spec_composite_encoding rt.length outs).map (fun w => (buf ++ w, false)) := by
  simp only [composite_to_sql, spec_composite_encoding,
    composite_to_sql_fields_spec arms rt outs _ h]
  cases specSegments outs <;> simp [Except.map, List.append_assoc]

/-- Concrete two-field composite used to witness the encoder theorems: one
non-null field with two value bytes, one null field. -/
def wArms : List (String × FieldEnc) :=
  [("street", fun _ => .ok ([104, 105], false)), ("zip", fun _ => .ok ([], true))]

/-- Runtime fields matching `wArms`. -/
def wRt : List (String × PgType) :=
  [("street", .scalarT "pg_catalog" "text" 25), ("zip", .scalarT "pg_catalog" "int4" 23)]

/-- Recorded encoder outcomes matching `wArms` on `wRt`. -/
def wOuts : List (Nat × List Nat × Bool) :=
  [(25, [104, 105], false), (23, [], true)]

/-- Witness for `composite_tosql_wire_spec` at the concrete two-field
composite. -/
theorem composite_tosql_wire_witness :
    List.Forall₂ (EncMatches wArms) wRt wOuts ∧
    composite_to_sql wArms (.compositeT "public" "addr" 77 wRt) []
      = (spec_composite_encoding wRt.length wOuts).map
          (fun w => (([] : List Nat) ++ w, false)) := by
  have hf : List.Forall₂ (EncMatches wArms) wRt wOuts := by
    refine List.Forall₂.cons ⟨rfl, ?_⟩ (List.Forall₂.cons ⟨rfl, ?_⟩ List.Forall₂.nil)
    · exact ⟨fun _ => .ok ([104, 105], false), rfl, rfl⟩
    · exact ⟨fun _ => .ok ([], true), by simp [wArms, List.lookup], rfl⟩
  exact ⟨hf, composite_tosql_wire_spec wArms "public" "addr" 77 wRt wOuts [] hf⟩

/-- One inner value read of the generated composite `from_sql`:
`postgres_types::private::read_value(fields[index].type_(), &mut buf)` for the
declared field's Rust type (driver code, kept abstract).  It receives the
runtime field type and the remaining buffer and yields a decoded value plus
the rest of the buffer. -/
abbrev ValueReader (α : Type) := PgType → List Nat → Except String (α × List Nat)

/-- The per-field reads of the generated composite `from_sql`
(src/codegen.rs lines 273-280, 295): for each declared field, in declaration
order, read and discard a big-endian `i32` OID, then run the driver's value
reader for that field against the runtime type at the same index
(`fields[index].type_()`, a panic when the runtime type has fewer fields).
The decoded values are paired with the declared field names. -/
def composite_from_sql_fields {α : Type} (rt : List (String × PgType)) :
    List (String × ValueReader α) → Nat → List Nat →
    Except String (List (String × α) × List Nat)
  | [], _, buf => .ok ([], buf)
  | (nm, rd) :: rest, idx, buf =>
    match read_be_i32 buf with
    | .error e => .error e
    | .ok (_oid, buf1) =>
      match rt[idx]? with
      | none => .error "panic: index out of bounds"
      | some f =>
        match rd f.2 buf1 with
        | .error e => .error e
        | .ok (v, buf2) =>
          match composite_from_sql_fields rt rest (idx + 1) buf2 with
          | .error e => .error e
          | .ok (vs, buf3) => .ok ((nm, v) :: vs, buf3)

/-- The generated composite `from_sql` body (src/codegen.rs lines 284-297):
extract the runtime fields (`unreachable!()` on a non-composite kind), read
the big-endian `i32` field count into the unused `num_fields` binding, run the
per-field reads, and build the `Borrowed` struct from the decoded values,
dispatched by field name (modelled as the name-value list in declared
order). -/
def composite_from_sql {α : Type} (readers : List (String × ValueReader α))
    (t : PgType) (buf : List Nat) : Except String (List (String × α)) :=
  match t with
  | .compositeT _ _ _ rtFields =>
    match read_be_i32 buf with
    | .error e => .error e
    | .ok (_num_fields, buf1) =>
      match composite_from_sql_fields rtFields readers 0 buf1 with
      | .error e => .error e
      | .ok (vs, _) => .ok vs
  | _ => .error "panic: unreachable"

/-- `read_be_i32` consumes exactly the four bytes of a `be32` encoding. -/
theorem read_be_i32_be32 (n : Int) (rest : List Nat) :
    ∃ v, read_be_i32 (be32 n ++ rest) = .ok (v, rest) := ⟨_, rfl⟩

/-- Relates one declared field (paired with the runtime field at the same
index) to one wire segment: whatever OID value sits on the wire, the field's
value reader consumes exactly the segment's value bytes and returns the
segment's value. -/
def FieldWire {α : Type} :
    (String × ValueReader α) × (String × PgType) → (Int × List Nat × α) → Prop :=
  fun p seg => ∀ rest, p.1.2 p.2.2 (seg.2.1 ++ rest) = .ok (seg.2.2, rest)

/-- The wire bytes of a list of segments: per field a big-endian `i32` OID
followed by the field's value bytes. -/
def segsBytes {α : Type} (segs : List (Int × List Nat × α)) : List Nat :=
  (segs.map (fun sg => be32 sg.1 ++ sg.2.1)).flatten

/-- The per-field reads decode a well-formed sequence of field segments:
every declared field is read in order, each wire OID is discarded, and the
resulting values are the segments' values paired with the declared names;
whatever follows the segments is left unread. -/
theorem composite_from_sql_fields_spec {α : Type} :
    ∀ (readers : List (String × ValueReader α)) (rts : List (String × PgType))
      (segs : List (Int × List Nat × α)) (rtsAll : List (String × PgType))
      (idx : Nat) (extra : List Nat),
    rtsAll.drop idx = rts →
    rts.length = readers.length →
    List.Forall₂ FieldWire (readers.zip rts) segs →
    composite_from_sql_fields rtsAll readers idx (segsBytes segs ++ extra)
      = .ok (List.zipWith (fun (r : String × ValueReader α) sg => (r.1, sg.2.2))
          readers segs, extra) := by
  intro readers
  induction readers with
  | nil =>
    intro rts segs rtsAll idx extra hdrop hlen hw
    have hrts : rts = [] := List.eq_nil_of_length_eq_zero (by simpa using hlen)
    subst hrts
    have hsegs : segs = [] := by
      cases hw
      rfl
    subst hsegs
    simp [composite_from_sql_fields, segsBytes]
  | cons r readers ih =>
    intro rts segs rtsAll idx extra hdrop hlen hw
    cases rts with
    | nil => simp at hlen
    | cons rtf rts =>
      cases segs with
      | nil =>
        rw [List.zip_cons_cons] at hw
        cases hw
      | cons sg segs =>
        have hw0 : FieldWire (r, rtf) sg := by
          have := hw
          rw [List.zip_cons_cons] at this
          cases this
          assumption
        have hwtail : List.Forall₂ FieldWire (readers.zip rts) segs := by
          have := hw
          rw [List.zip_cons_cons] at this
          cases this
          assumption
        obtain ⟨nm, rd⟩ := r
        obtain ⟨oidv, bytes, v⟩ := sg
        have hbuf : segsBytes ((oidv, bytes, v) :: segs) ++ extra
            = be32 oidv ++ (bytes ++ (segsBytes segs ++ extra)) := by
          simp [segsBytes, List.append_assoc]
        rw [hbuf]
        obtain ⟨w, hr⟩ := read_be_i32_be32 oidv (bytes ++ (segsBytes segs ++ extra))
        have hget : rtsAll[idx]? = some rtf := by
          have h0 : (rtsAll.drop idx)[0]? = some rtf := by rw [hdrop]; simp
          rw [List.getElem?_drop] at h0
          simpa using h0
        have hread : rd rtf.2 (bytes ++ (segsBytes segs ++ extra))
            = .ok (v, segsBytes segs ++ extra) := hw0 (segsBytes segs ++ extra)
        have hdrop' : rtsAll.drop (idx + 1) = rts := by
          have : rtsAll.drop (idx + 1) = (rtsAll.drop idx).drop 1 := by
            rw [List.drop_drop, Nat.add_comm]
          rw [this, hdrop]
          rfl
        have hrec := ih rts segs rtsAll (idx + 1) extra hdrop' (by simpa using hlen) hwtail
        simp only [composite_from_sql_fields, hr, hget, hread, hrec]
        rfl

/-- C4: the generated composite `from_sql` reads the header as a big-endian
`i32` field count, then for each declared field, in declaration order, a
big-endian `i32` OID — whose value is ignored — followed by the driver's value
reader for that field run against the runtime type at the same index, and
dispatches the decoded values by field name into the `Borrowed` struct (the
name-value list in declared order).  The count `c` and the wire OIDs inside
`segs` are arbitrary, and trailing bytes are ignored. -/
theorem composite_fromsql_decode_spec {α : Type}
    (readers : List (String × ValueReader α)) (s n : String) (o : Nat)
    (rt : List (String × PgType)) (c : Int) (segs : List (Int × List Nat × α))
    (extra : List Nat) (hlen : rt.length = readers.length)
    (hw : List.Forall₂ FieldWire (readers.zip rt) segs) :
    composite_from_sql readers (.compositeT s n o rt)
        (be32 c ++ (segsBytes segs ++ extra))
      = .ok (List.zipWith (fun (r : String × ValueReader α) sg => (r.1, sg.2.2))
          readers segs) := by
  obtain ⟨v, hv⟩ := read_be_i32_be32 c (segsBytes segs ++ extra)
  have hfields := composite_from_sql_fields_spec readers rt segs rt 0 extra
    (by simp) hlen hw
  simp only [composite_from_sql, hv, hfields]

/-- A concrete value reader used in the decoder witnesses: read one byte. -/
def wReader : ValueReader Nat := fun _ buf =>
  match buf with
  | b :: rest => .ok (b, rest)
  | [] => .error "unexpected EOF"

/-- Witness for `composite_fromsql_decode_spec`: one declared field whose
reader consumes one byte; the wire carries count 5 (ignored), OID 99
(ignored), the value byte 42, and a trailing byte. -/
theorem composite_fromsql_decode_witness :
    ([("street", PgType.scalarT "pg_catalog" "text" 25)].length
        = [("street", wReader)].length) ∧
    List.Forall₂ FieldWire
      ([("street", wReader)].zip [("street", PgType.scalarT "pg_catalog" "text" 25)])
      [((99 : Int), [42], (42 : Nat))] ∧
    composite_from_sql [("street", wReader)]
        (.compositeT "public" "addr" 77 [("street", PgType.scalarT "pg_catalog" "text" 25)])
        (be32 5 ++ (segsBytes [((99 : Int), [42], (42 : Nat))] ++ [7]))
      = .ok [("street", 42)] := by
  have hw : List.Forall₂ FieldWire
      ([("street", wReader)].zip [("street", PgType.scalarT "pg_catalog" "text" 25)])
      [((99 : Int), [42], (42 : Nat))] := by
    refine List.Forall₂.cons ?_ List.Forall₂.nil
    intro rest
    rfl
  exact ⟨rfl, hw,
    composite_fromsql_decode_spec [("street", wReader)] "public" "addr" 77
      [("street", PgType.scalarT "pg_catalog" "text" 25)] 5
      [((99 : Int), [42], (42 : Nat))] [7] rfl hw⟩

/-- C9: the generated composite `from_sql` never compares the field count it
reads from the buffer against the declared field count: for any count value
`c` on the wire, decoding equals running the declared-field read loop on the
rest of the buffer — the count is read, bound to the unused `num_fields`, and
discarded, so decoding succeeds or fails solely on the per-field reads. -/
theorem composite_fromsql_ignores_count {α : Type}
    (readers : List (String × ValueReader α)) (s n : String) (o : Nat)
    (rt : List (String × PgType)) (c : Int) (body : List Nat) :
    composite_from_sql readers (.compositeT s n o rt) (be32 c ++ body)
      = (composite_from_sql_fields rt readers 0 body).map (fun p => p.1) := by
  obtain ⟨v, hv⟩ := read_be_i32_be32 c body
  simp only [composite_from_sql, hv]
  cases composite_from_sql_fields rt readers 0 body <;> simp [Except.map]

/-! ### The CLI driver's managed-generate error path (src/cli.rs 100-114)

`run`'s `Generate` arm without a `live` subcommand runs

```
if let Err(e) = generate_managed(...) {
    container::cleanup(podman)?;
    return Err(e);
}
```

The `?` on `container::cleanup` propagates a teardown failure as `run`'s own
result, so a teardown error replaces `e`.  The outcomes of `generate_managed`
and `container::cleanup` are inputs of the model. -/

/-- The error type of src/error.rs, one constructor per variant; payloads are
foreign error values, modelled as strings. -/
inductive CliError : Type where
  | readQueries (msg : String)
  | containerError (msg : String)
  | codegen (msg : String)
  | prepareQueries (msg : String)
  | newMigration (msg : String)
  | migration (msg : String)
  | poolCreation (msg : String)
  | pool (msg : String)
  | fmtError (msg : String)
deriving DecidableEq

/-- The managed-generate arm of `run` (src/cli.rs lines 100-114), as a
function of the outcomes of `generate_managed` and `container::cleanup`:
on a generation error, cleanup runs first and its own failure is propagated
by `?`; only when cleanup succeeds is the original error returned. -/
def run_generate_managed (gen_result cleanup_result : Except CliError Unit) :
    Except CliError Unit :=
  match gen_result with
  | .ok _ => .ok ()
  | .error e =>
    match cleanup_result with
    | .error ce => .error ce
    | .ok _ => .error e

/-- C2 (code bug evidence): when generation fails and the subsequent container
teardown also fails, the driver returns the teardown error, not the original
generation error — the `?` on `container::cleanup(podman)` masks `e`, although
the `return Err(e)` just below shows the original error was meant to be
propagated.  When teardown succeeds, the original generation error is
returned, and teardown does run before propagation. -/
theorem run_generate_managed_masks :
    run_generate_managed (.error (CliError.codegen "generation failed"))
        (.error (CliError.containerError "teardown failed"))
      = .error (CliError.containerError "teardown failed") ∧
    CliError.containerError "teardown failed" ≠ CliError.codegen "generation failed" ∧
    run_generate_managed (.error (CliError.codegen "generation failed")) (.ok ())
      = .error (CliError.codegen "generation failed") := by
  refine ⟨rfl, ?_, rfl⟩
  decide

/-! ### The emitter: data model

The emitter's inputs come from the type registrar and the query preparer
(type_registrar.rs and prepare_queries.rs, which are not under src/).  Their
shapes are modelled from the spec; string-rendering registrar methods are kept
abstract as string-valued attributes. -/

/-- Modelled from the spec: the registrar's type descriptor
(`CornucopiaType`, from type_registrar.rs which is not under src/): pg
identity, target-language names, and the `is_copy` / `is_params` properties
(spec section 3).  `borrowed_rust_ty lifetime is_params` renders the borrowed
(or params) view of the type and `owning_call name is_nullable` renders the
owned-conversion expression; both are registrar code kept abstract as
string-valued functions. -/
structure CornucopiaType where
  pg_ty : PgType
  rust_ty_name : String
  is_copy : Bool
  is_params : Bool
  rust_path_from_types : String
  rust_path_from_queries : String
  borrowed_rust_ty : Option String → Bool → String
  owning_call : String → Bool → String

/-- Modelled from the spec: the registrar caches descriptors by
`(schema, name)` and, per spec sections 3 and 9, holds them in insertion
order; `custom_types` is that insertion-ordered association list. -/
structure TypeRegistrar where
  custom_types : List ((String × String) × CornucopiaType)

/-- `type_registrar.get(ty)`: lookup by the type's `(schema, name)` key. -/
def trGet (tr : TypeRegistrar) (t : PgType) : Option CornucopiaType :=
  List.lookup (t.schema, t.name) tr.custom_types

/-- Modelled from the spec: a prepared parameter `{ name, type_ref }`
(prepare_queries.rs is not under src/). -/
structure PreparedField where
  name : String
  ty : CornucopiaType

/-- Modelled from the spec: one result column `{ name, type_ref,
is_nullable }`. -/
structure PreparedColumn where
  name : String
  ty : CornucopiaType
  is_nullable : Bool

/-- Modelled from the spec: a deduplicated row shape; `is_copy` marks a fully
copyable row. -/
structure PreparedRow where
  name : String
  fields : List PreparedColumn
  is_copy : Bool

/-- Modelled from the spec: a prepared query; `row` is `none` for a statement
returning no columns, otherwise the index of the shared row shape in the
module's `rows` list together with the column index map. -/
structure PreparedQuery where
  name : String
  params : List PreparedField
  row : Option (Nat × List Nat)
  sql : String

/-- Modelled from the spec: a deduplicated parameter shape; `queries` holds
the indices (into the module's `queries` list) of the queries sharing this
shape, appended during per-query preparation and hence in query-declaration
order (spec section 4.2 step 4). -/
structure PreparedParams where
  name : String
  fields : List PreparedField
  queries : List Nat

/-- Modelled from the spec: one prepared module; the spec's insertion-ordered
maps become lists in first-insertion order. -/
structure PreparedModule where
  name : String
  queries : List PreparedQuery
  rows : List PreparedRow
  params : List PreparedParams

/-! ### The emitter: text templates

Each function below renders exactly the text its src/codegen.rs counterpart
writes; `join_comma`/`join_ln` become `String.intercalate` with `","`/`"\n"`.
Literal braces of the generated Rust are written `\x7b`/`\x7d` and literal
apostrophes `\x27`.  Registrar `get(...).unwrap()` calls become `Option`
results (`none` models the panic). -/

/-- Text of `domain_brw_fromsql` (src/codegen.rs lines 91-116). -/
def domain_brw_fromsql (struct_name ty_name ty_schema : String) : String :=
  "impl<\x27a> postgres_types::FromSql<\x27a> for " ++ struct_name ++ "Borrowed<\x27a> \x7b\n        fn from_sql(\n            _type: &postgres_types::Type,\n            buf: &\x27a [u8],\n        ) -> std::result::Result<\n            " ++ struct_name ++ "Borrowed<\x27a>,\n            std::boxed::Box<dyn std::error::Error + std::marker::Sync + std::marker::Send>,\n        > \x7b\n            let inner = match *_type.kind() \x7b\n                postgres_types::Kind::Domain(ref inner) => inner,\n                _ => unreachable!(),\n            \x7d;\n            let mut buf = buf;\n            let _oid = postgres_types::private::read_be_i32(&mut buf)?;\n            std::result::Result::Ok(" ++ struct_name ++ "Borrowed(\n                postgres_types::private::read_value(inner, &mut buf)?))\n        \x7d\n        fn accepts(type_: &postgres_types::Type) -> bool \x7b\n            type_.name() == \"" ++ ty_name ++ "\" && type_.schema() == \"" ++ ty_schema ++ "\"\n        \x7d\n    \x7d"

/-- Text of `domain_tosql` (src/codegen.rs lines 118-168). -/
def domain_tosql (type_registrar : TypeRegistrar) (struct_name : String)
    (inner_ty : CornucopiaType) (ty_name : String) (is_params : Bool) : String :=
  let accept_ty := inner_ty.borrowed_rust_ty (some "\x27a") true
  let post := if is_params then "Borrowed" else "Params"
  "impl <\x27a> postgres_types::ToSql for " ++ struct_name ++ post ++ "<\x27a> \x7b\n        fn to_sql(\n            &self,\n            _type: &postgres_types::Type,\n            buf: &mut postgres_types::private::BytesMut,\n        ) -> std::result::Result<\n            postgres_types::IsNull,\n            std::boxed::Box<dyn std::error::Error + Sync + Send>,\n        > \x7b\n            let type_ = match *_type.kind() \x7b\n                postgres_types::Kind::Domain(ref type_) => type_,\n                _ => unreachable!(),\n            \x7d;\n            postgres_types::ToSql::to_sql(&self.0, type_, buf)\n        \x7d\n        fn accepts(type_: &postgres_types::Type) -> bool \x7b\n            if type_.name() != \"" ++ ty_name ++ "\" \x7b\n                return false;\n            \x7d\n            match *type_.kind() \x7b\n                postgres_types::Kind::Domain(ref type_) => <" ++ accept_ty ++ " as postgres_types::ToSql>::accepts(\n                    type_\n                ),\n                _ => false,\n            \x7d\n        \x7d\n        fn to_sql_checked(\n            &self,\n            ty: &postgres_types::Type,\n            out: &mut postgres_types::private::BytesMut,\n        ) -> std::result::Result<\n            postgres_types::IsNull,\n            Box<dyn std::error::Error + std::marker::Sync + std::marker::Send>,\n        > \x7b\n            postgres_types::__to_sql_checked(self, ty, out)\n        \x7d\n    \x7d"

/-- Text of `composite_tosql` (src/codegen.rs lines 170-263); `none` models
the `unwrap` panic of a failed registrar lookup for a field type. -/
def composite_tosql (type_registrar : TypeRegistrar) (struct_name : String)
    (fields : List (String × PgType)) (ty_name : String) (is_params : Bool) :
    Option String :=
  let post := if is_params then "Borrowed" else "Params"
  let nb_fields := fields.length
  let write_fields := String.intercalate "\n" (fields.map (fun f =>
    "\"" ++ f.1 ++ "\" => postgres_types::ToSql::to_sql(&self." ++ f.1
      ++ ",field.type_(), buf),"))
  (fields.mapM (fun f => (trGet type_registrar f.2).map (fun ct =>
    "\"" ++ f.1 ++ "\" => <" ++ ct.borrowed_rust_ty (some "\x27a") true
      ++ " as postgres_types::ToSql>::accepts(f.type_()),"))).map (fun accept_list =>
    let accept_fields := String.intercalate "\n" accept_list
    "impl<\x27a> postgres_types::ToSql for " ++ struct_name ++ post ++ "<\x27a> \x7b\n        fn to_sql(\n            &self,\n            _type: &postgres_types::Type,\n            buf: &mut postgres_types::private::BytesMut,\n        ) -> std::result::Result<postgres_types::IsNull, std::boxed::Box<std::error::Error + Sync + Send>,> \x7b\n            let fields = match *_type.kind() \x7b\n                postgres_types::Kind::Composite(ref fields) => fields,\n                _ => unreachable!(),\n            \x7d;\n            buf.extend_from_slice(&(fields.len() as i32).to_be_bytes());\n            for field in fields \x7b\n                buf.extend_from_slice(&field.type_().oid().to_be_bytes());\n                let base = buf.len();\n                buf.extend_from_slice(&[0; 4]);\n                let r = match field.name() \x7b\n                    " ++ write_fields ++ "\n                    _ => unreachable!()\n                \x7d;\n                let count = match r? \x7b\n                    postgres_types::IsNull::Yes => -1,\n                    postgres_types::IsNull::No => \x7b\n                        let len = buf.len() - base - 4;\n                        if len > i32::max_value() as usize \x7b\n                            return std::result::Result::Err(std::convert::Into::into(\n                                \"value too large to transmit\",\n                            ));\n                        \x7d\n                        len as i32\n                    \x7d\n                \x7d;\n                buf[base..base + 4].copy_from_slice(&count.to_be_bytes());\n            \x7d\n            std::result::Result::Ok(postgres_types::IsNull::No)\n        \x7d\n        fn accepts(type_: &postgres_types::Type) -> bool \x7b\n            if type_.name() != \"" ++ ty_name ++ "\" \x7b\n                return false;\n            \x7d\n            match *type_.kind() \x7b\n                postgres_types::Kind::Composite(ref fields) => \x7b\n                    if fields.len() != " ++ toString nb_fields ++ "usize \x7b\n                        return false;\n                    \x7d\n                    fields.iter().all(|f| match f.name() \x7b\n                        " ++ accept_fields ++ "\n                        _ => false,\n                    \x7d)\n                \x7d\n                _ => false,\n            \x7d\n        \x7d\n        fn to_sql_checked(\n            &self,\n            ty: &postgres_types::Type,\n            out: &mut postgres_types::private::BytesMut,\n        ) -> std::result::Result<postgres_types::IsNull, Box<dyn std::error::Error + Sync + Send>> \x7b\n            postgres_types::__to_sql_checked(self, ty, out)\n        \x7d\n    \x7d")

/-- Text of `composite_fromsql` (src/codegen.rs lines 265-304). -/
def composite_fromsql (struct_name : String) (fields : List (String × PgType))
    (ty_name ty_schema : String) : String :=
  let field_names := String.intercalate "," (fields.map (fun f => f.1))
  let read_fields := String.intercalate "\n" (fields.enum.map (fun p =>
    "let _oid = postgres_types::private::read_be_i32(&mut buf)?;\n            let "
      ++ p.2.1 ++ " = postgres_types::private::read_value(fields[" ++ toString p.1
      ++ "].type_(), &mut buf)?;"))
  "impl<\x27a> postgres_types::FromSql<\x27a> for " ++ struct_name ++ "Borrowed<\x27a> \x7b\n        fn from_sql(\n            _type: &postgres_types::Type,\n            buf: &\x27a [u8],\n        ) -> Result<" ++ struct_name ++ "Borrowed<\x27a>, std::boxed::Box<dyn std::error::Error + Sync + Send>> \x7b\n            let fields = match *_type.kind() \x7b\n                postgres_types::Kind::Composite(ref fields) => fields,\n                _ => unreachable!(),\n            \x7d;\n            let mut buf = buf;\n            let num_fields = postgres_types::private::read_be_i32(&mut buf)?;\n            " ++ read_fields ++ "\n            Result::Ok(" ++ struct_name ++ "Borrowed \x7b " ++ field_names ++ " \x7d)\n        \x7d\n\n        fn accepts(type_: &postgres_types::Type) -> bool \x7b\n            type_.name() == \"" ++ ty_name ++ "\" && type_.schema() == \"" ++ ty_schema ++ "\"\n        \x7d\n    \x7d"

/-- One method of the shared-params struct: the `join_ln(queries, ...)`
closure body of `gen_params_struct` (src/codegen.rs lines 337-359).
`module.queries.get_index(*idx).unwrap()` becomes an `Option` lookup; the
`is_copy`-derived `fn_lifetime` and the `is_async`-derived `backend` and
`client_mut` substitutions of the enclosing function are taken as
arguments. -/
def params_method (module : PreparedModule) (is_copy is_async : Bool)
    (idx : Nat) : Option String :=
  (module.queries[idx]?).bind (fun q =>
    let backend := if is_async then "tokio_postgres" else "postgres"
    let client_mut := if is_async then "" else "mut"
    let fn_lifetime := if is_copy then "\x27a," else ""
    let param_values := String.intercalate "," (q.params.map (fun p => "&self." ++ p.name))
    let fn_async := if q.row.isNone && is_async then "async" else ""
    let fn_await := if q.row.isNone && is_async then ".await" else ""
    (match q.row with
     | some (ridx, _) => (module.rows[ridx]?).map (fun (r : PreparedRow) =>
         r.name ++ "Query<\x27a, C, " ++ r.name ++ ", " ++ toString q.params.length ++ ">")
     | none => some ("Result<u64, " ++ backend ++ "::Error>")).map (fun ret_type =>
      "pub " ++ fn_async ++ " fn " ++ q.name ++ "<" ++ fn_lifetime
        ++ "C: GenericClient>(&\x27a self, client: &\x27a " ++ client_mut ++ " C) -> "
        ++ ret_type ++ " \x7b\n                " ++ q.name ++ "(client, " ++ param_values
        ++ ")" ++ fn_await ++ "\n            \x7d"))

/-- Text of `gen_params_struct` (src/codegen.rs lines 306-367): the single
struct for one shared parameter shape, its borrowed-view fields, the
`Clone,Copy` derive when every field type is copy, and one method per sharing
query. -/
def gen_params_struct (type_registrar : TypeRegistrar) (module : PreparedModule)
    (params : PreparedParams) (is_async : Bool) : Option String :=
  let struct_fields := String.intercalate "," (params.fields.map (fun p =>
    "pub " ++ p.name ++ " : " ++ p.ty.borrowed_rust_ty (some "\x27a") true))
  let is_copy := params.fields.all (fun a => a.ty.is_copy)
  let copy := if is_copy then "Clone,Copy," else ""
  let lifetime := if is_copy then "" else "<\x27a>"
  (params.queries.mapM (params_method module is_copy is_async)).map (fun methods =>
    "#[derive(Debug, " ++ copy ++ ")]\n        pub struct " ++ params.name ++ lifetime
      ++ " \x7b " ++ struct_fields ++ " \x7d\n        impl " ++ lifetime ++ " "
      ++ params.name ++ " " ++ lifetime ++ " \x7b "
      ++ String.intercalate "\n" methods ++ " \x7d")

/-- The second block of `gen_row_structs` (src/codegen.rs lines 431-527): the
`{Row}Query` builder struct and its impl.  The concatenation is grouped so
that the `one`/`vec`/`opt`/`stream` method headers are explicit seams; read in
order, the pieces are the source template verbatim. -/
def row_query_struct (type_registrar : TypeRegistrar) (row : PreparedRow)
    (is_async : Bool) : String :=
  let name := row.name
  let nb_fields := row.fields.length
  let borrowed_str := if row.is_copy then "" else "Borrowed"
  let lifetime := if row.is_copy then "" else "<\x27b>"
  let client_mut := if is_async then "" else "mut"
  let fn_async := if is_async then "async" else ""
  let fn_await := if is_async then ".await" else ""
  let backend := if is_async then "tokio_postgres" else "postgres"
  let collect := if is_async then "try_collect().await" else "collect()"
  let raw_type := if is_async then "futures::Stream" else "Iterator"
  let raw_pre := if is_async then "" else ".iterator()"
  let raw_post := if is_async then ".into_stream()" else ""
  let get_fields := String.intercalate "," (row.fields.enum.map (fun p =>
    p.2.name ++ ": row.get(indexes[" ++ toString p.1 ++ "])"))
  let seg0 := "\n        pub struct " ++ name ++ "Query<\x27a, C: GenericClient, T, const N: usize> \x7b\n            client: &\x27a " ++ client_mut ++ " C,\n            params: [&\x27a (dyn postgres_types::ToSql + Sync); N],\n            indexes: &\x27static [usize; " ++ toString nb_fields ++ "], \n            query: &\x27static str,\n            mapper: fn(" ++ name ++ borrowed_str ++ ") -> T,\n        \x7d\n        impl<\x27a, C, T:\x27a, const N: usize> " ++ name ++ "Query<\x27a, C, T, N> where C: GenericClient \x7b\n            pub fn map<R>(self, mapper: fn(" ++ name ++ borrowed_str ++ ") -> R) -> " ++ name ++ "Query<\x27a,C,R,N> \x7b\n                " ++ name ++ "Query \x7b\n                    client: self.client,\n                    params: self.params,\n                    query: self.query,\n                    indexes: self.indexes,\n                    mapper,\n                \x7d\n            \x7d\n\n            pub fn extractor<\x27b>(row: &\x27b " ++ backend ++ "::row::Row, indexes: &\x27static [usize;" ++ toString nb_fields ++ "]) -> " ++ name ++ borrowed_str ++ lifetime ++ " \x7b\n                " ++ name ++ borrowed_str ++ " \x7b " ++ get_fields ++ " \x7d\n            \x7d\n        \n            pub " ++ fn_async ++ " fn stmt(&" ++ client_mut ++ " self) -> Result<" ++ backend ++ "::Statement, " ++ backend ++ "::Error> \x7b\n                self.client.prepare(self.query)" ++ fn_await ++ "\n            \x7d\n        \n            pub " ++ fn_async
  let seg1 := client_mut ++ " self) -> Result<T, " ++ backend ++ "::Error> \x7b\n                let stmt = self.stmt()" ++ fn_await ++ "?;\n                let row = self.client.query_one(&stmt, &self.params)" ++ fn_await ++ "?;\n                Ok((self.mapper)(Self::extractor(&row, self.indexes)))\n            \x7d\n        \n            pub " ++ fn_async
  let seg2 := "self) -> Result<Vec<T>, " ++ backend ++ "::Error> \x7b\n                self.stream()" ++ fn_await ++ "?." ++ collect ++ "\n            \x7d\n        \n            pub " ++ fn_async
  let seg3 := client_mut ++ " self) -> Result<Option<T>, " ++ backend ++ "::Error> \x7b\n                let stmt = self.stmt()" ++ fn_await ++ "?;\n                Ok(self\n                    .client\n                    .query_opt(&stmt, &self.params)\n                    " ++ fn_await ++ "?\n                    .map(|row| (self.mapper)(Self::extractor(&row, self.indexes))))\n            \x7d\n        \n            pub " ++ fn_async
  let seg4 := "\n                " ++ client_mut ++ " self,\n            ) -> Result<impl " ++ raw_type ++ "<Item = Result<T, " ++ backend ++ "::Error>> + \x27a, " ++ backend ++ "::Error> \x7b\n                let stmt = self.stmt()" ++ fn_await ++ "?;\n                let stream = self\n                    .client\n                    .query_raw(&stmt, cornucopia_client::slice_iter(&self.params))\n                    " ++ fn_await ++ "?\n                    " ++ raw_pre ++ "\n                    .map(move |res| res.map(|row| (self.mapper)(Self::extractor(&row, self.indexes))))\n                    " ++ raw_post ++ ";\n                Ok(stream)\n            \x7d\n        \x7d"
  seg0 ++ (" fn one(" ++ (seg1 ++ (" fn vec(" ++ (seg2 ++ (" fn opt(" ++ (seg3 ++ (" fn stream(" ++ seg4)))))))

/-- Text of `gen_row_structs` (src/codegen.rs lines 369-528): the owned row
struct, then — when the row is not copy — the borrowed struct with its
`From` conversion, then the `{Row}Query` builder. -/
def gen_row_structs (type_registrar : TypeRegistrar) (row : PreparedRow)
    (is_async : Bool) : String :=
  let struct_fields := String.intercalate "," (row.fields.map (fun col =>
    "pub " ++ col.name ++ " : "
      ++ (if col.is_nullable then "Option<" ++ col.ty.rust_path_from_queries ++ ">"
          else col.ty.rust_path_from_queries)))
  let copy := if row.is_copy then "Copy" else ""
  let part_owned := "#[derive(Debug, Clone, PartialEq," ++ copy ++ ")] pub struct "
    ++ row.name ++ " \x7b " ++ struct_fields ++ " \x7d"
  let part_borrowed :=
    if row.is_copy then ""
    else
      let bfields := String.intercalate "," (row.fields.map (fun col =>
        "pub " ++ col.name ++ " : "
          ++ (if col.is_nullable then
                "Option<" ++ col.ty.borrowed_rust_ty (some "\x27a") false ++ ">"
              else col.ty.borrowed_rust_ty (some "\x27a") false)))
      let fields_names := String.intercalate "," (row.fields.map (fun f => f.name))
      let borrowed_fields_to_owned := String.intercalate "," (row.fields.map (fun f =>
        f.name ++ " "
          ++ (if f.ty.is_copy then "" else ": " ++ f.ty.owning_call f.name f.is_nullable)))
      "pub struct " ++ row.name ++ "Borrowed<\x27a> \x7b " ++ bfields
        ++ " \x7d\n            impl<\x27a> From<" ++ row.name ++ "Borrowed<\x27a>> for "
        ++ row.name ++ " \x7b\n                fn from(" ++ row.name ++ "Borrowed \x7b "
        ++ fields_names ++ " \x7d: " ++ row.name
        ++ "Borrowed<\x27a>) -> Self \x7b\n                    Self \x7b "
        ++ borrowed_fields_to_owned
        ++ " \x7d\n                \x7d\n            \x7d"
  part_owned ++ (part_borrowed ++ row_query_struct type_registrar row is_async)

/-- Text of `gen_query_fn` (src/codegen.rs lines 530-587): the free query
function — a `{Row}Query` builder constructor for a row-returning query, a
prepare-and-execute function returning `Result<u64, _>` for a void query. -/
def gen_query_fn (type_registrar : TypeRegistrar) (module : PreparedModule)
    (query : PreparedQuery) (is_async : Bool) : Option String :=
  let client_mut := if is_async then "" else "mut"
  let fn_async := if is_async then "async" else ""
  let fn_await := if is_async then ".await" else ""
  let backend := if is_async then "tokio_postgres" else "postgres"
  match query.row with
  | some (idx, index) =>
    (module.rows[idx]?).map (fun r =>
      let row_name := r.name
      let param_list := String.intercalate "," (query.params.map (fun p =>
        p.name ++ " : &\x27a " ++ p.ty.borrowed_rust_ty none true))
      let index_str := String.intercalate "," (index.map toString)
      let nb_params := query.params.length
      let param_names := String.intercalate "," (query.params.map (fun p => p.name))
      "pub fn " ++ query.name ++ "<\x27a, C: GenericClient>(client: &\x27a " ++ client_mut
        ++ " C, " ++ param_list ++ ") -> " ++ row_name ++ "Query<\x27a,C, " ++ row_name
        ++ ", " ++ toString nb_params ++ "> \x7b\n            " ++ row_name
        ++ "Query \x7b\n                client,\n                params: [" ++ param_names
        ++ "],\n                query: \"" ++ query.sql
        ++ "\",\n                indexes: &[" ++ index_str
        ++ "],\n                mapper: |it| " ++ row_name
        ++ "::from(it),\n            \x7d\n        \x7d")
  | none =>
    let param_list := String.intercalate "," (query.params.map (fun p =>
      p.name ++ " : &\x27a " ++ p.ty.borrowed_rust_ty none true))
    let param_names := String.intercalate "," (query.params.map (fun p => p.name))
    some ("pub " ++ fn_async ++ " fn " ++ query.name
      ++ "<\x27a, C: GenericClient>(client: &\x27a " ++ client_mut ++ " C, " ++ param_list
      ++ ") -> Result<u64, " ++ backend
      ++ "::Error> \x7b\n                let stmt = client.prepare(\"" ++ query.sql
      ++ "\")" ++ fn_await ++ "?;\n                client.execute(&stmt, &["
      ++ param_names ++ "])" ++ fn_await ++ "\n            \x7d")

/-- Text of `gen_custom_type` (src/codegen.rs lines 591-723): the owned type
mirror per kind, plus — for non-copy domains and composites — the borrowed
variant, `From` conversion, `FromSql`, optional `Params` variant and `ToSql`.
`none` models the `unreachable!()` on an unsupported kind and the `unwrap`
panics of failed registrar lookups. -/
def gen_custom_type (type_registrar : TypeRegistrar) (ty : CornucopiaType) :
    Option String :=
  let ty_name := ty.pg_ty.name
  let ty_schema := ty.pg_ty.schema
  let struct_name := ty.rust_ty_name
  let copy := if ty.is_copy then "Copy," else ""
  match ty.pg_ty with
  | .enumT _ _ _ variants =>
    some ("#[derive(Debug, postgres_types::ToSql, postgres_types::FromSql, Clone, Copy, PartialEq, Eq)]\n                #[postgres(name = \"" ++ ty_name ++ "\")]\n                pub enum " ++ struct_name ++ " \x7b " ++ String.intercalate "," variants ++ " \x7d")
  | .domainT _ _ _ domain_inner_ty =>
    (trGet type_registrar domain_inner_ty).map (fun inner_ty =>
      let part1 := "#[derive(Debug, " ++ copy ++ "Clone, PartialEq, postgres_types::ToSql,postgres_types::FromSql)]\n                #[postgres(name = \"" ++ ty_name ++ "\")]\n                pub struct " ++ struct_name ++ " (pub " ++ inner_ty.rust_path_from_types ++ ");"
      if ty.is_copy then part1
      else
        let brw := "#[derive(Debug)]\n                    pub struct " ++ struct_name ++ "Borrowed<\x27a> (pub " ++ inner_ty.borrowed_rust_ty (some "\x27a") false ++ ");\n                    impl<\x27a> From<" ++ struct_name ++ "Borrowed<\x27a>> for " ++ struct_name ++ " \x7b\n                        fn from(\n                            " ++ struct_name ++ "Borrowed (inner): " ++ struct_name ++ "Borrowed<\x27a>,\n                        ) -> Self \x7b Self(" ++ inner_ty.owning_call "inner" false ++ ") \x7d\n                    \x7d"
        let params_part := if ty.is_params then "" else "#[derive(Debug, Clone)]\n                        pub struct " ++ struct_name ++ "Params<\x27a>(pub " ++ inner_ty.borrowed_rust_ty (some "\x27a") true ++ ");"
        part1 ++ brw ++ domain_brw_fromsql struct_name ty_name ty_schema
          ++ params_part
          ++ domain_tosql type_registrar struct_name inner_ty ty_name ty.is_params)
  | .compositeT _ _ _ fields =>
    (fields.mapM (fun f => (trGet type_registrar f.2).map (fun f_ty =>
        "pub " ++ f.1 ++ " : " ++ f_ty.rust_path_from_types))).bind (fun fl =>
      let fields_str := String.intercalate "," fl
      let part1 := "#[derive(Debug,postgres_types::ToSql,postgres_types::FromSql," ++ copy ++ " Clone, PartialEq)]\n                #[postgres(name = \"" ++ ty_name ++ "\")]\n                pub struct " ++ struct_name ++ " \x7b " ++ fields_str ++ " \x7d"
      if ty.is_copy then some part1
      else
        (fields.mapM (fun f => (trGet type_registrar f.2).map (fun f_ty =>
            "pub " ++ f.1 ++ " : " ++ f_ty.borrowed_rust_ty (some "\x27a") false))).bind (fun bl =>
        (fields.mapM (fun f => (trGet type_registrar f.2).map (fun f_ty =>
            f.1 ++ " " ++ (if f_ty.is_copy then "" else ": " ++ f_ty.owning_call f.1 false)))).bind (fun vl =>
          let borrowed_fields_str := String.intercalate "," bl
          let field_names := String.intercalate "," (fields.map (fun f => f.1))
          let field_values := String.intercalate "," vl
          let part2 := "#[derive(Debug)]\n                    pub struct " ++ struct_name ++ "Borrowed<\x27a> \x7b " ++ borrowed_fields_str ++ " \x7d\n                    impl<\x27a> From<" ++ struct_name ++ "Borrowed<\x27a>> for " ++ struct_name ++ " \x7b\n                        fn from(\n                            " ++ struct_name ++ "Borrowed \x7b\n                            " ++ field_names ++ "\n                            \x7d: " ++ struct_name ++ "Borrowed<\x27a>,\n                        ) -> Self \x7b Self \x7b " ++ field_values ++ " \x7d \x7d\n                    \x7d"
          let fromsql_str := composite_fromsql struct_name fields ty_name ty_schema
          let params_opt : Option String :=
            if ty.is_params then some ""
            else (fields.mapM (fun f => (trGet type_registrar f.2).map (fun f_ty =>
              "pub " ++ f.1 ++ " : " ++ f_ty.borrowed_rust_ty (some "\x27a") true))).map
              (fun pl =>
                "#[derive(Debug, Clone)]\n                        pub struct " ++ struct_name ++ "Params<\x27a> \x7b " ++ String.intercalate "," pl ++ " \x7d")
          params_opt.bind (fun params_part =>
            (composite_tosql type_registrar struct_name fields ty_name ty.is_params).map
              (fun tosql_str =>
                part1 ++ part2 ++ fromsql_str ++ params_part ++ tosql_str)))))
  | .scalarT _ _ _ => none

/-- Text of `gen_type_modules` (src/codegen.rs lines 725-746).  The Rust
groups the registrar's custom types by schema into a
`std::collections::HashMap<String, Vec<_>>` and then iterates that map:
`HashMap` iteration order is unspecified and varies with the per-process
random hash seed, so the embedding takes the iteration order of the schema
keys as the extra parameter `order`.  Within one schema, `Vec::push` during
the traversal of `custom_types` preserves the registrar's insertion order,
modelled by the order-preserving `filter`. -/
def gen_type_modules (type_registrar : TypeRegistrar) (order : List String) :
    Option String :=
  (order.mapM (fun mod_name =>
    (((type_registrar.custom_types.filter (fun e => e.1.1 == mod_name)).map
        (fun e => e.2)).mapM (gen_custom_type type_registrar)).map (fun tys =>
      "pub mod " ++ mod_name ++ " \x7b " ++ String.intercalate "\n" tys ++ " \x7d"))).map
    (fun mods => "pub mod types \x7b " ++ String.intercalate "\n" mods ++ " \x7d")

/-- The per-mode `import` string of `generate` (src/codegen.rs lines
753-757).  The async arm is a plain Rust string literal, so its doubled
braces are literal text. -/
def gen_import (is_async : Bool) : String :=
  if is_async then
    "use futures::\x7b\x7bStreamExt, TryStreamExt\x7d\x7d;use cornucopia_client::GenericClient;"
  else
    "use postgres::fallible_iterator::FallibleIterator;use postgres::GenericClient;"

/-- One `pub mod {module} { ... }` of the emitted `queries` module, the
`join_ln(modules, ...)` closure body of `generate` (src/codegen.rs lines
768-783). -/
def gen_query_module (type_registrar : TypeRegistrar) (is_async : Bool)
    (module : PreparedModule) : Option String :=
  (module.queries.mapM (fun query =>
      gen_query_fn type_registrar module query is_async)).bind (fun qs =>
  (module.params.mapM (fun it =>
      gen_params_struct type_registrar module it is_async)).map (fun ps =>
    let queries_string := String.intercalate "\n" qs
    let params_string := String.intercalate "\n" ps
    let rows_string := String.intercalate "\n" (module.rows.map (fun r =>
      gen_row_structs type_registrar r is_async))
    "pub mod " ++ module.name ++ " \x7b " ++ gen_import is_async ++ " "
      ++ params_string ++ " " ++ rows_string ++ " " ++ queries_string ++ " \x7d"))

/-- The buffer `buff` that `generate` builds (src/codegen.rs lines 758-784)
before the final formatting call at line 786: the banner comment and the
lint-allow attributes, then the `types` module tree, then the `queries`
module tree.  `order` is the `HashMap` iteration order of
`gen_type_modules`. -/
def generate_buff (type_registrar : TypeRegistrar) (modules : List PreparedModule)
    (is_async : Bool) (order : List String) : Option String :=
  (gen_type_modules type_registrar order).bind (fun type_mods =>
  (modules.mapM (gen_query_module type_registrar is_async)).map (fun query_modules =>
    "// This file was generated with `cornucopia`. Do not modify.\n    #![allow(clippy::all)]\n    #![allow(unused_variables)]\n    #![allow(unused_imports)]\n    #![allow(dead_code)]\n    "
      ++ (type_mods
      ++ ("pub mod queries \x7b " ++ (String.intercalate "\n" query_modules ++ " \x7d")))))

/-- The full `generate` (src/codegen.rs lines 748-787): build `buff`, then
return `Ok(prettyplease::unparse(&syn::parse_str(&buff)?))`.  The final step
is external library code (the pretty-printer the spec lists as an external
collaborator, section 2), so it enters as the function parameter `fmt`; a
`syn::parse_str` failure surfaces as the `Except` error, matching the `?` at
line 786.  `none` still models the emitter panics. -/
def generate (fmt : String → Except String String)
    (type_registrar : TypeRegistrar) (modules : List PreparedModule)
    (is_async : Bool) (order : List String) : Option (Except String String) :=
  (generate_buff type_registrar modules is_async order).map fmt

/-- C8 (code bug evidence): the string `generate` returns is the external
formatter's output on the buffer, and only the buffer begins with the banner
comment — whether the banner reaches the returned string is decided entirely
by `prettyplease::unparse(&syn::parse_str(..))`, which discards plain `//`
comments, so the real returned string starts with the reprinted
`#![allow(clippy::all)]` attributes and not with the banner.  Conjunct 1:
`generate`'s result is exactly `fmt` of the buffer.  Conjunct 2: every
successful buffer begins with the banner and the four lint-allow attributes.
Conjunct 3: at the concrete empty input, the returned value is `fmt` applied
to the banner-prefixed buffer, whatever the formatter does. -/
theorem generate_banner_stripped :
    (∀ (fmt : String → Except String String) (type_registrar : TypeRegistrar)
       (modules : List PreparedModule) (is_async : Bool) (order : List String),
       generate fmt type_registrar modules is_async order
         = (generate_buff type_registrar modules is_async order).map fmt) ∧
    (∀ (type_registrar : TypeRegistrar) (modules : List PreparedModule)
       (is_async : Bool) (order : List String) (buff : String),
       generate_buff type_registrar modules is_async order = some buff →
       ∃ rest, buff = "// This file was generated with `cornucopia`. Do not modify.\n    #![allow(clippy::all)]\n    #![allow(unused_variables)]\n    #![allow(unused_imports)]\n    #![allow(dead_code)]\n    " ++ rest) ∧
    (∀ fmt : String → Except String String,
       generate fmt ⟨[]⟩ [] false []
         = some (fmt ("// This file was generated with `cornucopia`. Do not modify.\n    #![allow(clippy::all)]\n    #![allow(unused_variables)]\n    #![allow(unused_imports)]\n    #![allow(dead_code)]\n    "
             ++ (("pub mod types \x7b " ++ String.intercalate "\n" ([] : List String) ++ " \x7d")
             ++ ("pub mod queries \x7b "
                 ++ (String.intercalate "\n" ([] : List String) ++ " \x7d")))))) := by
  refine ⟨fun fmt tr modules a order => rfl, ?_, fun fmt => rfl⟩
  intro type_registrar modules is_async order buff h
  unfold generate_buff at h
  cases ht : gen_type_modules type_registrar order with
  | none => rw [ht] at h; simp at h
  | some tm =>
    rw [ht] at h
    cases hq : modules.mapM (gen_query_module type_registrar is_async) with
    | none => rw [hq] at h; simp at h
    | some qs =>
      rw [hq] at h
      simp only [Option.some_bind, Option.map_some', Option.some.injEq] at h
      exact ⟨_, h.symm⟩

/-- Witness for `generate_banner_stripped` on the empty registrar and module
list: the buffer exists concretely and begins with the banner. -/
theorem generate_banner_stripped_witness :
    ∃ buff rest, generate_buff ⟨[]⟩ [] false [] = some buff ∧
      buff = "// This file was generated with `cornucopia`. Do not modify.\n    #![allow(clippy::all)]\n    #![allow(unused_variables)]\n    #![allow(unused_imports)]\n    #![allow(dead_code)]\n    " ++ rest := by
  obtain ⟨rest, hr⟩ := generate_banner_stripped.2.1 ⟨[]⟩ [] false [] _ rfl
  exact ⟨_, rest, rfl, hr⟩

/-- A concrete enum descriptor living in schema `a`, used to exhibit the
schema-order dependence of `gen_type_modules`. -/
def moodCT : CornucopiaType :=
  { pg_ty := .enumT "a" "mood" 1001 ["sad", "ok", "happy"]
    rust_ty_name := "Mood"
    is_copy := true
    is_params := true
    rust_path_from_types := "super::super::types::a::Mood"
    rust_path_from_queries := "super::super::types::a::Mood"
    borrowed_rust_ty := fun _ _ => "super::super::types::a::Mood"
    owning_call := fun nm _ => nm }

/-- A concrete enum descriptor living in schema `b`. -/
def sizeCT : CornucopiaType :=
  { pg_ty := .enumT "b" "size" 1002 ["small", "big"]
    rust_ty_name := "Size"
    is_copy := true
    is_params := true
    rust_path_from_types := "super::super::types::b::Size"
    rust_path_from_queries := "super::super::types::b::Size"
    borrowed_rust_ty := fun _ _ => "super::super::types::b::Size"
    owning_call := fun nm _ => nm }

/-- A registrar holding one custom type in each of two schemas. -/
def twoSchemaRegistrar : TypeRegistrar :=
  ⟨[(("a", "mood"), moodCT), (("b", "size"), sizeCT)]⟩

/-- The key set of the `HashMap<String, Vec<CornucopiaType>>` that
`gen_type_modules` builds: the distinct schema names.  Any iteration order of
a `HashMap` is some permutation of its keys. -/
def hashmap_keys (type_registrar : TypeRegistrar) : List String :=
  (type_registrar.custom_types.map (fun e => e.1.1)).dedup

/-- C1 (code bug evidence): with two schemas in the registrar, two iteration
orders of the schema `HashMap` — both permutations of its key set, so both
realizable as `std::collections::HashMap` iteration orders, which depend on
the per-process random hash seed — make the emitted text differ (the two
`pub mod` schema blocks swap, a difference the item-order-preserving
pretty-printer keeps).  The spec promises sorted, run-independent schema
iteration; the code iterates an unordered `HashMap`. -/
theorem generate_order_dependent :
    generate_buff twoSchemaRegistrar [] false ["a", "b"]
      ≠ generate_buff twoSchemaRegistrar [] false ["b", "a"] ∧
    ["a", "b"].Perm (hashmap_keys twoSchemaRegistrar) ∧
    ["b", "a"].Perm (hashmap_keys twoSchemaRegistrar) := by
  refine ⟨by decide, by decide, by decide⟩

/-- A successful `Option`-valued `mapM` yields one output per input. -/
theorem mapM_option_length {α β : Type} (f : α → Option β) :
    ∀ (l : List α) (ys : List β), l.mapM f = some ys → ys.length = l.length := by
  intro l
  induction l with
  | nil =>
    intro ys h
    simp only [List.mapM_nil, pure, Option.some.injEq] at h
    subst h
    rfl
  | cons a l ih =>
    intro ys h
    rw [List.mapM_cons] at h
    cases hfa : f a with
    | none => rw [hfa] at h; simp at h
    | some b =>
      rw [hfa] at h
      cases hml : l.mapM f with
      | none => rw [hml] at h; simp at h
      | some bs =>
        rw [hml] at h
        simp only [bind, Option.bind, pure, Option.some.injEq] at h
        subst h
        simp [ih bs hml]

/-- A successful `Option`-valued `mapM` maps the `i`-th input to the `i`-th
output. -/
theorem mapM_option_getElem {α β : Type} (f : α → Option β) :
    ∀ (l : List α) (ys : List β), l.mapM f = some ys →
      ∀ i : Nat, ys[i]? = (l[i]?).bind f := by
  intro l
  induction l with
  | nil =>
    intro ys h i
    simp only [List.mapM_nil, pure, Option.some.injEq] at h
    subst h
    simp
  | cons a l ih =>
    intro ys h i
    rw [List.mapM_cons] at h
    cases hfa : f a with
    | none => rw [hfa] at h; simp at h
    | some b =>
      rw [hfa] at h
      cases hml : l.mapM f with
      | none => rw [hml] at h; simp at h
      | some bs =>
        rw [hml] at h
        simp only [bind, Option.bind, pure, Option.some.injEq] at h
        subst h
        cases i with
        | zero => simp [hfa]
        | succ n => simpa using ih bs hml n

/-- C6: for one shared parameter shape, `gen_params_struct` emits exactly one
struct; its derive carries `Clone,Copy` exactly when all field types are copy;
its impl holds exactly the rendered methods, one per sharing query, joined in
the order of the shape's `queries` list (query-declaration order, as the
preparer appends sharing queries in declaration order); and the `i`-th method
belongs to the `i`-th sharing query, calls the corresponding free query
function with references to `self`'s fields, and is marked `async` (and
`.await`s) exactly when that query has no row shape and the mode is async. -/
theorem gen_params_struct_spec (type_registrar : TypeRegistrar)
    (module : PreparedModule) (p : PreparedParams) (is_async : Bool)
    (methods : List String)
    (hm : p.queries.mapM
        (params_method module (p.fields.all (fun x => x.ty.is_copy)) is_async)
      = some methods) :
    gen_params_struct type_registrar module p is_async = some
      ("#[derive(Debug, "
        ++ (if p.fields.all (fun x => x.ty.is_copy) then "Clone,Copy," else "")
        ++ ")]\n        pub struct " ++ p.name
        ++ (if p.fields.all (fun x => x.ty.is_copy) then "" else "<\x27a>") ++ " \x7b "
        ++ String.intercalate "," (p.fields.map (fun f =>
            "pub " ++ f.name ++ " : " ++ f.ty.borrowed_rust_ty (some "\x27a") true))
        ++ " \x7d\n        impl "
        ++ (if p.fields.all (fun x => x.ty.is_copy) then "" else "<\x27a>")
        ++ " " ++ p.name ++ " "
        ++ (if p.fields.all (fun x => x.ty.is_copy) then "" else "<\x27a>")
        ++ " \x7b " ++ String.intercalate "\n" methods ++ " \x7d") ∧
    methods.length = p.queries.length ∧
    (∀ (i idx : Nat) (q : PreparedQuery),
      p.queries[i]? = some idx → module.queries[idx]? = some q →
      (q.row = none → methods[i]? = some
        ("pub " ++ (if is_async then "async" else "") ++ " fn " ++ q.name ++ "<"
          ++ (if p.fields.all (fun x => x.ty.is_copy) then "\x27a," else "")
          ++ "C: GenericClient>(&\x27a self, client: &\x27a "
          ++ (if is_async then "" else "mut") ++ " C) -> "
          ++ ("Result<u64, " ++ (if is_async then "tokio_postgres" else "postgres")
              ++ "::Error>")
          ++ " \x7b\n                " ++ q.name ++ "(client, "
          ++ String.intercalate "," (q.params.map (fun par => "&self." ++ par.name))
          ++ ")" ++ (if is_async then ".await" else "") ++ "\n            \x7d")) ∧
      (∀ (ridx : Nat) (ix : List Nat) (r : PreparedRow),
        q.row = some (ridx, ix) → module.rows[ridx]? = some r →
        methods[i]? = some
          ("pub " ++ "" ++ " fn " ++ q.name ++ "<"
            ++ (if p.fields.all (fun x => x.ty.is_copy) then "\x27a," else "")
            ++ "C: GenericClient>(&\x27a self, client: &\x27a "
            ++ (if is_async then "" else "mut") ++ " C) -> "
            ++ (r.name ++ "Query<\x27a, C, " ++ r.name ++ ", "
                ++ toString q.params.length ++ ">")
            ++ " \x7b\n                " ++ q.name ++ "(client, "
            ++ String.intercalate "," (q.params.map (fun par => "&self." ++ par.name))
            ++ ")" ++ "" ++ "\n            \x7d"))) := by
  refine ⟨?_, mapM_option_length _ _ _ hm, ?_⟩
  · simp only [gen_params_struct, hm, Option.map_some']
  · intro i idx q hqi hq
    have hmi := mapM_option_getElem _ _ _ hm i
    rw [hqi] at hmi
    simp only [Option.some_bind] at hmi
    constructor
    · intro hrow
      rw [hmi]
      simp only [params_method, hq, Option.some_bind, hrow, Option.isNone_none,
        Bool.true_and, Option.map_some']
    · intro ridx ix r hrow hr
      rw [hmi]
      simp only [params_method, hq, Option.some_bind, hrow, Option.isNone_some,
        Bool.false_and, Bool.false_eq_true, if_false, hr, Option.map_some']

/-- A concrete copy scalar descriptor (for `i32`) used by the emitter
witnesses. -/
def intCT : CornucopiaType :=
  { pg_ty := .scalarT "pg_catalog" "int4" 23
    rust_ty_name := "i32"
    is_copy := true
    is_params := true
    rust_path_from_types := "i32"
    rust_path_from_queries := "i32"
    borrowed_rust_ty := fun _ _ => "i32"
    owning_call := fun nm _ => nm }

/-- A concrete one-column copy row shape. -/
def findNameRow : PreparedRow :=
  { name := "FindName"
    fields := [{ name := "id", ty := intCT, is_nullable := false }]
    is_copy := true }

/-- A concrete void query. -/
def insertQuery : PreparedQuery :=
  { name := "insert_t"
    params := [{ name := "id", ty := intCT }]
    row := none
    sql := "INSERT INTO t(id) VALUES($1)" }

/-- A concrete row-returning query sharing `insertQuery`'s parameter shape. -/
def findQuery : PreparedQuery :=
  { name := "find_name"
    params := [{ name := "id", ty := intCT }]
    row := some (0, [0])
    sql := "SELECT id FROM t WHERE id = $1" }

/-- The parameter shape shared by the two queries, in declaration order. -/
def sharedParams : PreparedParams :=
  { name := "IdParams"
    fields := [{ name := "id", ty := intCT }]
    queries := [0, 1] }

/-- A concrete prepared module holding the two queries, the row shape and the
shared parameter shape. -/
def demoModule : PreparedModule :=
  { name := "demo"
    queries := [insertQuery, findQuery]
    rows := [findNameRow]
    params := [sharedParams] }

/-- Witness for `gen_params_struct_spec`: on `demoModule`'s shared shape in
async mode the method list exists concretely and has one method per sharing
query. -/
theorem gen_params_struct_spec_witness :
    ∃ methods,
      sharedParams.queries.mapM
        (params_method demoModule (sharedParams.fields.all (fun x => x.ty.is_copy)) true)
        = some methods ∧
      methods.length = sharedParams.queries.length := by
  obtain ⟨h1, h2, h3⟩ :=
    gen_params_struct_spec ⟨[]⟩ demoModule sharedParams true _ rfl
  exact ⟨_, rfl, h2⟩

/-- C7: `gen_query_fn` emits, exactly for a query with no row shape, an
(async-marked when in async mode) function returning
`Result<u64, driver::Error>` whose body prepares the statement and executes
it; and, for a query with a row shape, a function returning the row's
`{Row}Query<\x27a, C, {Row}, N>` builder with `N` the parameter count; and the
emitted `{Row}Query` impl exposes the `one`, `vec`, `opt` and `stream`
execution variants (the four method headers are seams of the emitted
text). -/
theorem gen_query_fn_spec (type_registrar : TypeRegistrar)
    (module : PreparedModule) (query : PreparedQuery) (is_async : Bool) :
    (query.row = none →
      gen_query_fn type_registrar module query is_async = some
        ("pub " ++ (if is_async then "async" else "") ++ " fn " ++ query.name
          ++ "<\x27a, C: GenericClient>(client: &\x27a "
          ++ (if is_async then "" else "mut") ++ " C, "
          ++ String.intercalate "," (query.params.map (fun p =>
              p.name ++ " : &\x27a " ++ p.ty.borrowed_rust_ty none true))
          ++ ") -> Result<u64, " ++ (if is_async then "tokio_postgres" else "postgres")
          ++ "::Error> \x7b\n                let stmt = client.prepare(\"" ++ query.sql
          ++ "\")" ++ (if is_async then ".await" else "")
          ++ "?;\n                client.execute(&stmt, &["
          ++ String.intercalate "," (query.params.map (fun p => p.name))
          ++ "])" ++ (if is_async then ".await" else "") ++ "\n            \x7d")) ∧
    (∀ (ridx : Nat) (ix : List Nat) (r : PreparedRow),
      query.row = some (ridx, ix) → module.rows[ridx]? = some r →
      gen_query_fn type_registrar module query is_async = some
        ("pub fn " ++ query.name ++ "<\x27a, C: GenericClient>(client: &\x27a "
          ++ (if is_async then "" else "mut") ++ " C, "
          ++ String.intercalate "," (query.params.map (fun p =>
              p.name ++ " : &\x27a " ++ p.ty.borrowed_rust_ty none true))
          ++ ") -> " ++ r.name ++ "Query<\x27a,C, " ++ r.name ++ ", "
          ++ toString query.params.length ++ "> \x7b\n            " ++ r.name
          ++ "Query \x7b\n                client,\n                params: ["
          ++ String.intercalate "," (query.params.map (fun p => p.name))
          ++ "],\n                query: \"" ++ query.sql
          ++ "\",\n                indexes: &["
          ++ String.intercalate "," (ix.map toString)
          ++ "],\n                mapper: |it| " ++ r.name
          ++ "::from(it),\n            \x7d\n        \x7d")) ∧
    (∀ r : PreparedRow, ∃ s0 s1 s2 s3 s4 s5 s6,
      gen_row_structs type_registrar r is_async
        = s0 ++ (s1 ++ (s2 ++ (" fn one(" ++ (s3 ++ (" fn vec(" ++ (s4
            ++ (" fn opt(" ++ (s5 ++ (" fn stream(" ++ s6)))))))))) := by
  refine ⟨?_, ?_, ?_⟩
  · intro hrow
    simp only [gen_query_fn, hrow]
  · intro ridx ix r hrow hr
    simp only [gen_query_fn, hrow, hr, Option.map_some']
  · intro r
    exact ⟨_, _, _, _, _, _, _, rfl⟩

/-- Witness for `gen_query_fn_spec`: the void query of `demoModule` in sync
mode emits an execute function, and the row shape's builder text exists. -/
theorem gen_query_fn_spec_witness :
    insertQuery.row = none ∧
    (∃ s, gen_query_fn ⟨[]⟩ demoModule insertQuery false = some s) ∧
    findQuery.row = some (0, [0]) ∧
    (∃ s, gen_query_fn ⟨[]⟩ demoModule findQuery false = some s) :=
  ⟨rfl,
    ⟨_, (gen_query_fn_spec ⟨[]⟩ demoModule insertQuery false).1 rfl⟩,
    rfl,
    ⟨_, (gen_query_fn_spec ⟨[]⟩ demoModule findQuery false).2.1 0 [0] findNameRow rfl rfl⟩⟩
